import Mathlib

/-!
Shallow embedding of `src/marathon_agent.py` (class `StravaMarathonAgent`):
the fitness-profile analyzer (`analyze_strava_fitness` and its helpers) and
the training-plan generator (`generate_training_plan` and its helpers).

Modelling conventions:
* Python floats are modelled as `ℚ` (exact rational arithmetic).
* Python `round(x, n)` is modelled by `roundq n x`, rounding to `n` decimal
  places.  Python uses round-half-to-even on binary floats; `roundq` rounds
  half up.  The two agree except on exact decimal halves, which none of the
  concrete inputs used below hit.
* Fallible code (the goal-time parse, the empty-input check) is modelled with
  `Except String`; a raised Python exception corresponds to `Except.error`.
* Dates (`datetime.strptime(run['date'], '%Y-%m-%d')`) are modelled by a
  `Date` record of year/month/day together with its Julian day number, so that
  `(d2 - d1).days` becomes a difference of day numbers and sorting datetimes
  becomes sorting day numbers.
-/

namespace Marathon

/-- Model of Python `round(x, n)` on our rational model of floats:
round to `n` decimal places (half rounds up; see module comment). -/
def roundq (n : ℕ) (x : ℚ) : ℚ :=
  ((round (x * (10 : ℚ) ^ n) : ℤ) : ℚ) / (10 : ℚ) ^ n

/-- Python `min(a, b)` on two numbers (returns `a` on ties). -/
def pymin (a b : ℚ) : ℚ := if a ≤ b then a else b

/-- Python `max(a, b)` on two numbers (returns `a` on ties). -/
def pymax (a b : ℚ) : ℚ := if b ≤ a then a else b

lemma pymin_eq_min (a b : ℚ) : pymin a b = min a b := (min_def a b).symm

lemma pymax_eq_max (a b : ℚ) : pymax a b = max a b := by
  unfold pymax
  rcases le_total b a with h | h
  · rw [if_pos h, max_eq_left h]
  · by_cases h' : b ≤ a
    · rw [if_pos h', max_eq_left h']
    · rw [if_neg h', max_eq_right h]

/-- A calendar date, as parsed by `datetime.strptime(date, '%Y-%m-%d')`. -/
structure Date where
  year : ℤ
  month : ℤ
  day : ℤ
deriving DecidableEq, Repr

/-- Julian day number of a Gregorian calendar date (the classic integer
formula, with truncating division as in C/Python `//` on the shifted values).
Subtracting two datetimes in the source (`(a - b).days`) is modelled by
subtracting Julian day numbers. -/
def Date.julianDayNumber (dt : Date) : ℤ :=
  let a : ℤ := Int.tdiv (dt.month - 14) 12
  Int.tdiv (1461 * (dt.year + 4800 + a)) 4
    + Int.tdiv (367 * (dt.month - 2 - 12 * a)) 12
    - Int.tdiv (3 * (Int.tdiv (dt.year + 4900 + a) 100)) 4
    + dt.day - 32075

/-- The year-month bucket of a date: models the string slice `run['date'][:7]`
(the `"YYYY-MM"` prefix) used for `weeks_of_data`. -/
def Date.monthKey (dt : Date) : ℤ × ℤ := (dt.year, dt.month)

/-- One run record, as consumed by `analyze_strava_fitness` (the fields the
analyzer reads: `date`, `distance`, `pace_per_mile`, `average_heartrate`,
`workout_type`). -/
structure Run where
  date : Date
  distance : ℚ
  pacePerMile : ℚ
  averageHeartrate : Option ℚ
  workoutType : Option String
deriving DecidableEq, Repr

/-- `total_distance = sum(run['distance'] for run in runs_data)`. -/
def totalDistanceOf (runs : List Run) : ℚ :=
  (runs.map Run.distance).sum

/-- `avg_pace = sum(run['pace_per_mile'] for run in runs_data) / total_runs`. -/
def avgPaceOf (runs : List Run) : ℚ :=
  (runs.map Run.pacePerMile).sum / (runs.length : ℚ)

/-- `weeks_of_data = len(set(run['date'][:7] for run in runs_data))`:
the number of distinct year-month buckets. -/
def weeksOfDataOf (runs : List Run) : ℕ :=
  ((runs.map (fun r => r.date.monthKey)).dedup).length

/-- `weekly_mileage = total_distance / max(weeks_of_data, 1)`. -/
def weeklyMileageOf (runs : List Run) : ℚ :=
  totalDistanceOf runs / ((max (weeksOfDataOf runs) 1 : ℕ) : ℚ)

/-- `longest_run = max(runs_data, key=lambda x: x['distance'])`: Python `max`
keeps the first maximal element, i.e. a later element replaces the current
best only when strictly larger. -/
def longestRunAux (first : Run) (rest : List Run) : Run :=
  rest.foldl (fun best r => if best.distance < r.distance then r else best) first

/-- Julian day numbers of all the runs' dates (the list `run_dates`). -/
def dayNumsOf (runs : List Run) : List ℤ :=
  runs.map (fun r => r.date.julianDayNumber)

/-- `run_dates.sort()`: the date list sorted ascending. -/
def sortedDayNumsOf (runs : List Run) : List ℤ :=
  List.insertionSort (fun a b => a ≤ b) (dayNumsOf runs)

/-- `gaps = [(run_dates[i] - run_dates[i-1]).days for i in range(1, len(run_dates))]`. -/
def gapsOf : List ℤ → List ℤ
  | a :: b :: t => (b - a) :: gapsOf (b :: t)
  | _ => []

/-- `avg_gap = sum(gaps) / len(gaps) if gaps else 0`, with `gaps` computed from
the sorted date list. -/
def avgGapOf (runs : List Run) : ℚ :=
  let g := gapsOf (sortedDayNumsOf runs)
  if g.length = 0 then 0 else ((g.map (fun z => (z : ℚ))).sum) / (g.length : ℚ)

/-- `recent_runs = sorted(runs_data, key=lambda x: x['date'], reverse=True)[:10]`. -/
def recentRunsOf (runs : List Run) : List Run :=
  (List.insertionSort
    (fun a b => b.date.julianDayNumber ≤ a.date.julianDayNumber) runs).take 10

/-- `_determine_fitness_level(weekly_mileage, longest_run, avg_pace)`:
the descending base-tier cascade followed by the pace adjustment. -/
def determineFitnessLevel (weeklyMileage longestRun avgPace : ℚ) : String :=
  let baseLevel :=
    if 50 ≤ weeklyMileage ∧ 20 ≤ longestRun then ("Advanced")
    else if 35 ≤ weeklyMileage ∧ 16 ≤ longestRun then ("Intermediate+")
    else if 25 ≤ weeklyMileage ∧ 12 ≤ longestRun then ("Intermediate")
    else if 15 ≤ weeklyMileage ∧ 8 ≤ longestRun then ("Beginner+")
    else ("Beginner")
  if avgPace < 7 then
    (if baseLevel = "Beginner" ∨ baseLevel = "Beginner+" then ("Intermediate")
     else baseLevel)
  else if 10 < avgPace then
    (if baseLevel = "Advanced" ∨ baseLevel = "Intermediate+" then ("Intermediate")
     else baseLevel)
  else baseLevel

/-- `_calculate_consistency_score(avg_gap_days)`. -/
def calculateConsistencyScore (avgGapDays : ℚ) : String :=
  if avgGapDays ≤ 1.5 then ("Excellent (Daily runner)")
  else if avgGapDays ≤ 2.5 then ("Very Good (5-6 runs/week)")
  else if avgGapDays ≤ 3.5 then ("Good (4-5 runs/week)")
  else if avgGapDays ≤ 5 then ("Fair (3-4 runs/week)")
  else ("Needs Improvement (Inconsistent)")

/-- `_generate_recommendations(weekly_mileage, longest_run, avg_gap)`:
independently appended advice strings, in source order. -/
def generateRecommendations (weeklyMileage longestRun avgGap : ℚ) : List String :=
  (if weeklyMileage < 20 then [ "Focus on building base mileage gradually (10% rule)" ] else [])
    ++ (if longestRun < 10 then [ "Gradually increase long run distance" ] else [])
    ++ (if 3 < avgGap then [ "Improve consistency - aim for at least 4 runs per week" ] else [])
    ++ (if 50 < weeklyMileage ∧ longestRun < 16 then
          [ "Add more long runs to match your weekly volume" ] else [])

/-- Count occurrences per workout-type key, preserving first-seen key order
(models the `workout_types` dict built in `analyze_strava_fitness`; a `none`
key models a record whose `workout_type` is `None`/absent). -/
def tallyAdd (k : Option String) : List (Option String × ℕ) → List (Option String × ℕ)
  | [] => [ (k, 1) ]
  | (k', c) :: t => if k' = k then (k', c + 1) :: t else (k', c) :: tallyAdd k t

/-- The workout-type distribution fold over the run list. -/
def workoutTally (runs : List Run) : List (Option String × ℕ) :=
  runs.foldl (fun acc r => tallyAdd (r.workoutType) acc) []

/-- Runs with a truthy `average_heartrate`
(`[run for run in runs_data if run.get('average_heartrate')]`:
Python truthiness excludes both `None` and `0`). -/
def hrRunsOf (runs : List Run) : List Run :=
  runs.filter (fun r => ¬ (r.averageHeartrate.getD 0 = 0))

/-- `avg_hr = sum(...) / len(hr_runs) if hr_runs else None`. -/
def avgHrOf (runs : List Run) : Option ℚ :=
  match hrRunsOf runs with
  | [] => none
  | h :: t =>
    some ((((h :: t).map (fun r => r.averageHeartrate.getD 0)).sum) / (((h :: t).length : ℕ) : ℚ))

/-- The fitness profile returned by `analyze_strava_fitness` (its result
dict, with the `longest_run` sub-dict flattened into three fields). -/
structure Profile where
  dataPeriodDays : ℤ
  totalRuns : ℕ
  totalDistance : ℚ
  weeklyMileage : ℚ
  averagePace : ℚ
  recentPaceTrend : ℚ
  longestRunDistance : ℚ
  longestRunPace : ℚ
  longestRunDate : Date
  fitnessLevel : String
  consistencyScore : String
  workoutDistribution : List (Option String × ℕ)
  averageHeartrate : Option ℚ
  trainingRecommendations : List String
deriving DecidableEq, Repr

/-- `analyze_strava_fitness(runs_data)`: returns the error dict
`{"error": "No valid running data available"}` on an empty run list
(modelled as `Except.error`), otherwise the assembled profile. -/
def analyzeStravaFitness (runsData : List Run) : Except String Profile :=
  match runsData with
  | [] => Except.error ("No valid running data available")
  | r0 :: rest =>
    let runs := r0 :: rest
    let avgPace := avgPaceOf runs
    let weeklyMileage := weeklyMileageOf runs
    let longestRun := longestRunAux r0 rest
    let recent := recentRunsOf runs
    let recentAvgPace := ((recent.map Run.pacePerMile).sum) / ((recent.length : ℕ) : ℚ)
    let dayNums := dayNumsOf runs
    let avgGap := avgGapOf runs
    let avgHr := avgHrOf runs
    Except.ok
      { dataPeriodDays :=
          (dayNums.foldl max (r0.date.julianDayNumber))
            - (dayNums.foldl min (r0.date.julianDayNumber))
        totalRuns := runs.length
        totalDistance := roundq 1 (totalDistanceOf runs)
        weeklyMileage := roundq 1 weeklyMileage
        averagePace := roundq 2 avgPace
        recentPaceTrend := roundq 2 recentAvgPace
        longestRunDistance := longestRun.distance
        longestRunPace := longestRun.pacePerMile
        longestRunDate := longestRun.date
        fitnessLevel := determineFitnessLevel weeklyMileage longestRun.distance avgPace
        consistencyScore := calculateConsistencyScore avgGap
        workoutDistribution := workoutTally runs
        averageHeartrate :=
          (match avgHr with
           | some v => if v = 0 then none else some (roundq 0 v)
           | none => none)
        trainingRecommendations :=
          generateRecommendations weeklyMileage longestRun.distance avgGap }

/-- The fields of the `fitness_data` dict that `generate_training_plan` and
`_calculate_pace_targets` read via `dict.get` with a default; a `none` field
models a missing key. (`longestRunDistance` flattens the nested access
`fitness_data.get('longest_run', {}).get('distance', 8)`.) -/
structure FitnessData where
  weeklyMileage : Option ℚ
  fitnessLevel : Option String
  longestRunDistance : Option ℚ
  averagePace : Option ℚ
deriving DecidableEq, Repr

/-- `peak_multipliers.get(weeks, 1.5)` for `{16: 1.8, 12: 1.6, 8: 1.4, 4: 1.2}`. -/
def peakMultiplier (weeks : ℕ) : ℚ :=
  if weeks = 16 then 1.8
  else if weeks = 12 then 1.6
  else if weeks = 8 then 1.4
  else if weeks = 4 then 1.2
  else 1.5

/-- `max_safe_mileage`: `min(weekly_mileage * multiplier, 70)`, then clamped to
40 for Beginner and 50 for Beginner+. -/
def maxSafeMileage (weeks : ℕ) (weeklyMileage : ℚ) (fitnessLevel : String) : ℚ :=
  let m := pymin (weeklyMileage * peakMultiplier weeks) 70
  if fitnessLevel = "Beginner" then pymin m 40
  else if fitnessLevel = "Beginner+" then pymin m 50
  else m

/-- One training-phase descriptor.  The source formats the mileage range as an
f-string (`f"{base:.0f}-{peak:.0f}"`); the two endpoints are kept here as the
rounded numbers instead of a formatted string (a single-number range has equal
endpoints). -/
structure Phase where
  phase : String
  weeksLabel : String
  focus : String
  mileageLow : ℚ
  mileageHigh : ℚ
deriving DecidableEq, Repr

/-- `_create_training_phases(weeks, base, peak)`: fixed shapes for 16, 12 and
8 weeks; every other value takes the 4-week shape. -/
def createTrainingPhases (weeks : ℕ) (base peak : ℚ) : List Phase :=
  if weeks = 16 then
    [ ⟨"Base Building", "1-6", "Aerobic development", roundq 0 base, roundq 0 (base * 1.3)⟩,
      ⟨"Build Up", "7-12", "Speed & strength", roundq 0 (base * 1.3), roundq 0 peak⟩,
      ⟨"Peak", "13-14", "Race pace practice", roundq 0 peak, roundq 0 peak⟩,
      ⟨"Taper", "15-16", "Recovery & race prep", roundq 0 (base * 0.6), roundq 0 (base * 0.8)⟩ ]
  else if weeks = 12 then
    [ ⟨"Base Building", "1-4", "Aerobic development", roundq 0 base, roundq 0 (base * 1.2)⟩,
      ⟨"Build Up", "5-9", "Speed & strength", roundq 0 (base * 1.2), roundq 0 peak⟩,
      ⟨"Peak", "10", "Race pace practice", roundq 0 peak, roundq 0 peak⟩,
      ⟨"Taper", "11-12", "Recovery & race prep", roundq 0 (base * 0.7), roundq 0 (base * 0.8)⟩ ]
  else if weeks = 8 then
    [ ⟨"Build Up", "1-5", "Maintain & improve", roundq 0 base, roundq 0 peak⟩,
      ⟨"Peak", "6", "Race pace practice", roundq 0 peak, roundq 0 peak⟩,
      ⟨"Taper", "7-8", "Recovery & race prep", roundq 0 (base * 0.8), roundq 0 (base * 0.8)⟩ ]
  else
    [ ⟨"Maintain", "1-2", "Maintain fitness", roundq 0 base, roundq 0 base⟩,
      ⟨"Taper", "3-4", "Recovery & race prep", roundq 0 (base * 0.7), roundq 0 (base * 0.7)⟩ ]

/-- A weekly training structure: `runs_per_week` plus the 7-slot session
template (the source dict's `'structure'` key). -/
structure WeeklyStructure where
  runsPerWeek : ℕ
  sessions : List String
deriving DecidableEq, Repr

/-- The `'Beginner'` entry of the `structures` dict in
`_create_weekly_structure` (also the fallback for unknown levels). -/
def beginnerWeeklyStructure : WeeklyStructure :=
  ⟨4, [ "Easy Run", "Rest", "Easy Run", "Rest", "Tempo/Speed", "Rest", "Long Run" ]⟩

/-- `_create_weekly_structure(fitness_level)`:
`structures.get(fitness_level, structures['Beginner'])`. -/
def createWeeklyStructure (fitnessLevel : String) : WeeklyStructure :=
  if fitnessLevel = "Beginner" then beginnerWeeklyStructure
  else if fitnessLevel = "Beginner+" then
    ⟨5, [ "Easy Run", "Tempo/Speed", "Easy Run", "Rest", "Easy Run", "Rest", "Long Run" ]⟩
  else if fitnessLevel = "Intermediate" then
    ⟨5, [ "Easy Run", "Speed Work", "Easy Run", "Tempo Run", "Easy Run", "Rest", "Long Run" ]⟩
  else if fitnessLevel = "Intermediate+" then
    ⟨6, [ "Easy Run", "Speed Work", "Easy Run", "Tempo Run", "Easy Run", "Recovery Run", "Long Run" ]⟩
  else if fitnessLevel = "Advanced" then
    ⟨6, [ "Easy Run", "Speed Work", "Easy Run", "Tempo Run", "Easy Run", "Recovery Run", "Long Run" ]⟩
  else beginnerWeeklyStructure

/-- The speed-workout catalog of the `if fitness_level in ['Beginner']` branch
of `_generate_key_workouts`. -/
def beginnerSpeedWorkouts : List String :=
  [ "4x400m @ 5K pace", "3x800m @ 5K pace", "6x400m @ 5K pace", "4x800m @ 5K pace" ]

/-- The catalog of the `elif fitness_level in ['Beginner+', 'Intermediate']`
branch. -/
def intermediateSpeedWorkouts : List String :=
  [ "4x800m @ 5K pace", "6x800m @ 5K pace", "3x1600m @ 10K pace",
    "5x1000m @ 5K pace", "8x400m @ Mile pace" ]

/-- The catalog of the final `else` branch (commented `# Advanced` in the
source): selected for Intermediate+, Advanced, and any other label. -/
def advancedSpeedWorkouts : List String :=
  [ "6x800m @ 5K pace", "4x1200m @ 5K pace", "3x1600m @ 10K pace",
    "8x400m @ Mile pace", "5x1000m @ 5K pace", "2x3200m @ 10K pace" ]

/-- The `for i in range(weeks - 4)` loop building the `weeks ≥ 12` long-run
list: at index `i`, first increment `current` by 2 when `i` is even and
`current < 20`, then append `min(current, 22)`. -/
def longRunLoop : ℕ → ℕ → ℚ → List ℚ
  | 0, _, _ => []
  | n + 1, i, current =>
    let c := if i % 2 = 0 ∧ current < 20 then current + 2 else current
    pymin c 22 :: longRunLoop n (i + 1) c

/-- The long-run progression of `_generate_key_workouts` (already truncated by
`long_runs[:weeks]` as in the source). -/
def longRunProgressionOf (weeks : ℕ) (currentLongest : ℚ) : List ℚ :=
  let startLong := pymax currentLongest 8
  if 12 ≤ weeks then
    ((longRunLoop (weeks - 4) 0 startLong) ++ [ 18, 12, 8, 6 ]).take weeks
  else
    (((List.range ((min (weeks - 2) 6 + 1) / 2)).map
        (fun (j : ℕ) => startLong + 2 * (j : ℚ))) ++ [ 12, 8 ]).take weeks

/-- The two key-workout progressions returned by `_generate_key_workouts`
(the long-run distance list and the tier-selected speed-work catalog). -/
structure KeyWorkouts where
  longRunProgression : List ℚ
  speedWorkExamples : List String
deriving DecidableEq, Repr

/-- `_generate_key_workouts(weeks, fitness_level, current_longest)`. -/
def generateKeyWorkouts (weeks : ℕ) (fitnessLevel : String) (currentLongest : ℚ) :
    KeyWorkouts :=
  { longRunProgression := longRunProgressionOf weeks currentLongest
    speedWorkExamples :=
      if fitnessLevel = "Beginner" then beginnerSpeedWorkouts
      else if fitnessLevel = "Beginner+" ∨ fitnessLevel = "Intermediate" then
        intermediateSpeedWorkouts
      else advancedSpeedWorkouts }

/-- Split a character list at every occurrence of the separator `c`; models
Python `str.split(sep)` for a one-character separator (so splitting the empty
string gives one empty field, and separators at the ends give empty fields). -/
def splitOnChar (c : Char) : List Char → List (List Char)
  | [] => [ [] ]
  | x :: xs =>
    match splitOnChar c xs with
    | h :: t => if x = c then [] :: h :: t else (x :: h) :: t
    | [] => [ [ x ] ]

/-- Value of a list of decimal digit characters (most significant first). -/
def digitsVal (cs : List Char) : ℕ :=
  cs.foldl (fun acc c => acc * 10 + (c.toNat - 48)) 0

/-- ASCII whitespace characters stripped by Python `float` before parsing. -/
def isPySpace (c : Char) : Bool :=
  c == ' ' || c == '\t' || c == '\n' || c == '\r' || c == '\x0b' || c == '\x0c'

/-- Strip leading and trailing whitespace, as Python `float` does. -/
def stripPySpaces (cs : List Char) : List Char :=
  ((cs.dropWhile isPySpace).reverse.dropWhile isPySpace).reverse

/-- Continuation of a digit group: digits with single underscores allowed
only between digits (PEP 515), as accepted inside Python numeric literals. -/
def groupTailOk : List Char → Bool
  | [] => true
  | [ '_' ] => false
  | '_' :: d :: rest => d.isDigit && groupTailOk rest
  | c :: rest => c.isDigit && groupTailOk rest

/-- A non-empty digit group (underscores only between digits). -/
def groupOk (cs : List Char) : Bool :=
  match cs with
  | [] => false
  | c :: rest => c.isDigit && groupTailOk rest

/-- Numeric value of a digit group, ignoring its underscores. -/
def groupVal (cs : List Char) : ℕ :=
  digitsVal (cs.filter (fun c => c != '_'))

/-- Number of digits of a digit group (underscores excluded). -/
def groupLen (cs : List Char) : ℕ :=
  (cs.filter (fun c => c != '_')).length

/-- Parse the mantissa of a float literal: digits with at most one decimal
point, at least one digit overall (`"7"`, `".5"`, `"5."`, `"1_0.2"` parse;
`"abc"`, `""`, `"."`, `"1.2.3"` do not). -/
def parseMantissa (cs : List Char) : Option ℚ :=
  match splitOnChar '.' cs with
  | [ ip ] => if groupOk ip then some ((groupVal ip : ℚ)) else none
  | [ ip, fp ] =>
    if (ip ≠ [] ∨ fp ≠ []) ∧ (ip = [] ∨ groupOk ip) ∧ (fp = [] ∨ groupOk fp) then
      some ((groupVal ip : ℚ) + (groupVal fp : ℚ) / (10 : ℚ) ^ groupLen fp)
    else none
  | _ => none

/-- Parse the signed exponent part following `e`/`E`. -/
def parseExpPart (cs : List Char) : Option ℤ :=
  match cs with
  | '-' :: rest => if groupOk rest then some (-(groupVal rest : ℤ)) else none
  | '+' :: rest => if groupOk rest then some ((groupVal rest : ℤ)) else none
  | _ => if groupOk cs then some ((groupVal cs : ℤ)) else none

/-- Model of Python `float(s)` on finite decimal literals: surrounding ASCII
whitespace is stripped, then an optional sign, a mantissa of digits with at
most one decimal point (at least one digit, underscores allowed between
digits), and an optional `e`/`E` exponent with optional sign.  The
non-finite literals `inf`/`infinity`/`nan` (which Python accepts but which
have no value in this exact-rational model of floats) and non-ASCII digit or
space characters are not modelled; no finite decimal form is rejected. -/
def parseFloatChars (cs0 : List Char) : Option ℚ :=
  let cs1 := stripPySpaces cs0
  let (sign, body) :=
    match cs1 with
    | '-' :: rest => ((-1 : ℚ), rest)
    | '+' :: rest => ((1 : ℚ), rest)
    | _ => ((1 : ℚ), cs1)
  match splitOnChar 'e' (body.map (fun c => if c = 'E' then 'e' else c)) with
  | [ mant ] => (parseMantissa mant).map (fun m => sign * m)
  | [ mant, ex ] =>
    match parseMantissa mant, parseExpPart ex with
    | some m, some e => some (sign * m * (10 : ℚ) ^ e)
    | _, _ => none
  | _ => none

/-- The pace-target table returned by `_calculate_pace_targets`. -/
structure PaceTargets where
  currentAveragePace : ℚ
  goalMarathonPace : ℚ
  easyPace : ℚ
  tempoPace : ℚ
  intervalPace : ℚ
  longRunPace : ℚ
deriving DecidableEq, Repr

/-- The dict literal assembled at the end of `_calculate_pace_targets`. -/
def mkPaceTargets (currentPace goalPace : ℚ) : PaceTargets :=
  { currentAveragePace := currentPace
    goalMarathonPace := roundq 2 goalPace
    easyPace := roundq 2 (goalPace * 1.15)
    tempoPace := roundq 2 (goalPace * 0.92)
    intervalPace := roundq 2 (goalPace * 0.85)
    longRunPace := roundq 2 (goalPace * 1.10) }

/-- `_calculate_pace_targets(fitness_data, goal_time)`.  `if goal_time:` is
falsy for both `None` and the empty string, so both take the estimated-pace
branch (`goal_pace = current_pace * 0.95`).  Otherwise the string is split on
`':'` and `float` is applied to its first three fields; a missing third field
(`IndexError`) or a non-numeric field (`ValueError`) raises, modelled as
`Except.error`.  Fields beyond the third are ignored. -/
def calculatePaceTargets (fitnessData : FitnessData) (goalTime : Option String) :
    Except String PaceTargets :=
  let currentPace := fitnessData.averagePace.getD 9
  match goalTime with
  | none => Except.ok (mkPaceTargets currentPace (currentPace * 0.95))
  | some g =>
    if g.data = [] then Except.ok (mkPaceTargets currentPace (currentPace * 0.95))
    else
      match splitOnChar ':' g.data with
      | h :: m :: s :: _ =>
        match parseFloatChars h, parseFloatChars m, parseFloatChars s with
        | some hv, some mv, some sv =>
          let goalHours := hv + mv / 60 + sv / 3600
          Except.ok (mkPaceTargets currentPace (goalHours * 60 / (26.2 : ℚ)))
        | _, _, _ => Except.error ("MalformedGoalTimeError")
      | _ => Except.error ("MalformedGoalTimeError")

/-- One row of the week-by-week schedule. -/
structure WeekEntry where
  week : ℕ
  totalMiles : ℚ
  focus : String
  keyWorkout : String
deriving DecidableEq, Repr

/-- `_get_week_focus(week_num, total_weeks)`. -/
def getWeekFocus (weekNum totalWeeks : ℕ) : String :=
  if 12 ≤ totalWeeks then
    if weekNum ≤ 6 then ("Base building")
    else if weekNum ≤ totalWeeks - 4 then ("Speed & strength")
    else if weekNum ≤ totalWeeks - 2 then ("Race pace")
    else ("Taper & recovery")
  else
    if weekNum ≤ totalWeeks - 2 then ("Maintain fitness") else ("Taper & recovery")

/-- `_get_key_workout(week_num, total_weeks, fitness_level)`. -/
def getKeyWorkout (weekNum totalWeeks : ℕ) (fitnessLevel : String) : String :=
  if totalWeeks - 2 < weekNum then ("Easy pace runs only")
  else
    let workouts :=
      if fitnessLevel = "Beginner" then [ "Tempo run", "Fartlek", "Hill repeats" ]
      else [ "Interval training", "Tempo run", "Long run with pickups" ]
    workouts.getD ((weekNum - 1) % 3) ("")

/-- The `mileage_progression` list of `_generate_weekly_schedule`: for
`weeks ≥ 12` a linear build over `weeks - 4` weeks (each value rounded to one
decimal) followed by four taper weeks at `peak × {0.8, 0.6, 0.4, 0.3}`; for
shorter timelines `weeks - 2` flat weeks at `base` (unrounded, as in the
source) followed by two taper weeks at `base × {0.7, 0.5}`. -/
def mileageProgression (weeks : ℕ) (base peak : ℚ) : List ℚ :=
  if 12 ≤ weeks then
    let buildWeeks := weeks - 4
    let increment := (peak - base) / (buildWeeks : ℚ)
    ((List.range buildWeeks).map (fun (w : ℕ) => roundq 1 (base + increment * (w : ℚ))))
      ++ [ roundq 1 (peak * 0.8), roundq 1 (peak * 0.6),
           roundq 1 (peak * 0.4), roundq 1 (peak * 0.3) ]
  else
    ((List.range (weeks - 2)).map (fun _ => base))
      ++ [ roundq 1 (base * 0.7), roundq 1 (base * 0.5) ]

/-- `_generate_weekly_schedule(weeks, base_mileage, peak_mileage,
fitness_level)`: one entry per week number `1..weeks`, taking its mileage from
`mileage_progression` (falling back to `base_mileage` past its end). -/
def generateWeeklySchedule (weeks : ℕ) (baseMileage peakMileage : ℚ)
    (fitnessLevel : String) : List WeekEntry :=
  let prog := mileageProgression weeks baseMileage peakMileage
  (List.range weeks).map (fun i =>
    let weekNum := i + 1
    { week := weekNum
      totalMiles := if weekNum ≤ prog.length then prog.getD (weekNum - 1) baseMileage
                    else baseMileage
      focus := getWeekFocus weekNum weeks
      keyWorkout := getKeyWorkout weekNum weeks fitnessLevel })

/-- The plan dict returned by `generate_training_plan`. -/
structure TrainingPlan where
  timelineWeeks : ℕ
  fitnessLevel : String
  currentWeeklyMileage : ℚ
  peakWeeklyMileage : ℚ
  goalMarathonTime : Option String
  trainingPhases : List Phase
  weeklyStructure : WeeklyStructure
  keyWorkouts : KeyWorkouts
  paceTargets : PaceTargets
  weeklySchedule : List WeekEntry
deriving DecidableEq, Repr

/-- `generate_training_plan(weeks, fitness_data, goal_time)`: reads the three
profile fields with defaults 20 / `'Beginner'` / 8, computes the peak target,
and assembles the plan.  A goal-time parse failure raised inside
`_calculate_pace_targets` propagates out of `generate_training_plan` before
any plan is returned, modelled by the `Except` bind. -/
def generateTrainingPlan (weeks : ℕ) (fitnessData : FitnessData)
    (goalTime : Option String) : Except String TrainingPlan :=
  let weeklyMileage := fitnessData.weeklyMileage.getD 20
  let fitnessLevel := fitnessData.fitnessLevel.getD ("Beginner")
  let longestRun := fitnessData.longestRunDistance.getD 8
  let maxSafe := maxSafeMileage weeks weeklyMileage fitnessLevel
  match calculatePaceTargets fitnessData goalTime with
  | Except.error e => Except.error e
  | Except.ok paceTargets =>
    Except.ok
      { timelineWeeks := weeks
        fitnessLevel := fitnessLevel
        currentWeeklyMileage := weeklyMileage
        peakWeeklyMileage := roundq 1 maxSafe
        goalMarathonTime := goalTime
        trainingPhases := createTrainingPhases weeks weeklyMileage maxSafe
        weeklyStructure := createWeeklyStructure fitnessLevel
        keyWorkouts := generateKeyWorkouts weeks fitnessLevel longestRun
        paceTargets := paceTargets
        weeklySchedule := generateWeeklySchedule weeks weeklyMileage maxSafe fitnessLevel }

/-!  Theorems about the embedded program, one per claim (plus the helper
lemmas, witnesses and counterexamples they need). -/

/-- Restatement of the spec's two-stage tiering rule in the spec's own shape
(§4.1): the descending cascade of AND-conditions picks the base tier, then a
single promotion (pace `< 7.0`, base Beginner/Beginner+) or demotion (pace
`> 10.0`, base Advanced/Intermediate+) applies, with no other adjustment.
Compared against `determineFitnessLevel`, the embedding of the source. -/
def specTwoStageFitnessRule (weeklyMileage longestRun avgPace : ℚ) : String :=
  let baseTier :=
    if 50 ≤ weeklyMileage ∧ 20 ≤ longestRun then ("Advanced")
    else if 35 ≤ weeklyMileage ∧ 16 ≤ longestRun then ("Intermediate+")
    else if 25 ≤ weeklyMileage ∧ 12 ≤ longestRun then ("Intermediate")
    else if 15 ≤ weeklyMileage ∧ 8 ≤ longestRun then ("Beginner+")
    else ("Beginner")
  if avgPace < 7 ∧ (baseTier = "Beginner" ∨ baseTier = "Beginner+") then
    ("Intermediate")
  else if 10 < avgPace ∧ (baseTier = "Advanced" ∨ baseTier = "Intermediate+") then
    ("Intermediate")
  else baseTier

/-- The if/elif pace adjustment of the source and the two independent
conjunctive rules of the spec agree for any base label. -/
lemma pace_adjust_eq (b : String) (p : ℚ) :
    (if p < 7 then (if b = "Beginner" ∨ b = "Beginner+" then ("Intermediate") else b)
     else if 10 < p then
       (if b = "Advanced" ∨ b = "Intermediate+" then ("Intermediate") else b)
     else b)
    = (if p < 7 ∧ (b = "Beginner" ∨ b = "Beginner+") then ("Intermediate")
       else if 10 < p ∧ (b = "Advanced" ∨ b = "Intermediate+") then ("Intermediate")
       else b) := by
  by_cases h7 : p < 7
  · by_cases hb : b = "Beginner" ∨ b = "Beginner+"
    · simp [h7, hb]
    · have h10 : ¬ (10 < p) := by linarith
      simp [h7, hb, h10]
  · by_cases h10 : 10 < p
    · by_cases ha : b = "Advanced" ∨ b = "Intermediate+"
      · simp [h7, h10, ha]
      · simp [h7, h10, ha]
    · simp [h7, h10]

/-- The source's `_determine_fitness_level` computes exactly the spec's
two-stage rule. -/
lemma determineFitnessLevel_eq_spec (weeklyMileage longestRun avgPace : ℚ) :
    determineFitnessLevel weeklyMileage longestRun avgPace
      = specTwoStageFitnessRule weeklyMileage longestRun avgPace := by
  simp only [determineFitnessLevel, specTwoStageFitnessRule]
  exact pace_adjust_eq _ _

/-- C1: for the empty run sequence, `analyze_strava_fitness` fails (returns
the error value) and no partial fitness profile is produced. -/
theorem analyze_empty_fails :
    analyzeStravaFitness [] = Except.error ("No valid running data available") := rfl

/-- C2: for every non-empty run sequence, the fitness level of the profile
returned by `analyze_strava_fitness` is the result of the spec's two-stage
rule (descending cascade, then pace promotion/demotion) applied to the
computed weekly mileage, longest-run distance and average pace. -/
theorem analyze_fitness_level_two_stage (r0 : Run) (rest : List Run) :
    (analyzeStravaFitness (r0 :: rest)).map Profile.fitnessLevel
      = Except.ok (specTwoStageFitnessRule (weeklyMileageOf (r0 :: rest))
          ((longestRunAux r0 rest).distance) (avgPaceOf (r0 :: rest))) := by
  simp only [analyzeStravaFitness, Except.map, determineFitnessLevel_eq_spec]

/-- C9: any fitness level outside Beginner / Beginner+ / Intermediate —
including labels that are not among the five defined tiers — selects the
Advanced speed-work catalog (never the Beginner one), while the weekly
structure lookup for a label outside all five tiers falls back to the
Beginner template. -/
theorem unknown_level_speed_catalog (fitnessLevel : String) (weeks : ℕ)
    (currentLongest : ℚ) (h1 : fitnessLevel ≠ "Beginner")
    (h2 : fitnessLevel ≠ "Beginner+") (h3 : fitnessLevel ≠ "Intermediate") :
    (generateKeyWorkouts weeks fitnessLevel currentLongest).speedWorkExamples
        = advancedSpeedWorkouts
      ∧ advancedSpeedWorkouts ≠ beginnerSpeedWorkouts
      ∧ (fitnessLevel ≠ "Intermediate+" → fitnessLevel ≠ "Advanced" →
          createWeeklyStructure fitnessLevel = beginnerWeeklyStructure) := by
  refine ⟨?_, by decide, fun h4 h5 => ?_⟩
  · simp [generateKeyWorkouts, h1, h2, h3]
  · simp [createWeeklyStructure, h1, h2, h3, h4, h5]

/-- C9 witness: the unknown label `"Elite"` gets the Advanced speed-work
catalog but the Beginner weekly structure. -/
theorem unknown_level_speed_catalog_witness :
    (generateKeyWorkouts 12 ("Elite") 8).speedWorkExamples = advancedSpeedWorkouts
      ∧ createWeeklyStructure ("Elite") = beginnerWeeklyStructure :=
  ⟨(unknown_level_speed_catalog ("Elite") 12 8 (by decide) (by decide) (by decide)).1,
   (unknown_level_speed_catalog ("Elite") 12 8 (by decide) (by decide) (by decide)).2.2
     (by decide) (by decide)⟩

/-- C10: when the fitness profile lacks the weekly-mileage, the fitness-level,
or the longest-run-distance field — each independently, with the other
fields held arbitrary — `generate_training_plan` does not fail and behaves
exactly as if the missing field were 20, `'Beginner'` or 8 respectively;
with all three missing, the produced plan echoes those defaults. -/
theorem missing_fields_use_defaults (weeks : ℕ) (wm lr ap : Option ℚ)
    (lvl : Option String) (goalTime : Option String) :
    generateTrainingPlan weeks ⟨none, lvl, lr, ap⟩ goalTime
        = generateTrainingPlan weeks ⟨some 20, lvl, lr, ap⟩ goalTime
      ∧ generateTrainingPlan weeks ⟨wm, none, lr, ap⟩ goalTime
        = generateTrainingPlan weeks ⟨wm, some ("Beginner"), lr, ap⟩ goalTime
      ∧ generateTrainingPlan weeks ⟨wm, lvl, none, ap⟩ goalTime
        = generateTrainingPlan weeks ⟨wm, lvl, some 8, ap⟩ goalTime
      ∧ (generateTrainingPlan weeks ⟨wm, lvl, lr, ap⟩ none).isOk = true
      ∧ (generateTrainingPlan weeks ⟨none, none, none, ap⟩ none).map
          TrainingPlan.fitnessLevel = Except.ok ("Beginner")
      ∧ (generateTrainingPlan weeks ⟨none, none, none, ap⟩ none).map
          TrainingPlan.currentWeeklyMileage = Except.ok 20
      ∧ (generateTrainingPlan weeks ⟨none, none, none, ap⟩ none).map
          (fun p => p.keyWorkouts.longRunProgression)
        = Except.ok (longRunProgressionOf weeks 8) := by
  exact ⟨rfl, rfl, rfl, rfl, rfl, rfl, rfl⟩

/-- Placeholder pace-target record (used only as a `getD` default below). -/
def junkPaceTargets : PaceTargets := ⟨0, 0, 0, 0, 0, 0⟩

/-- Placeholder plan record (used only as a `getD` default below). -/
def junkPlan : TrainingPlan :=
  ⟨0, "", 0, 0, none, [], ⟨0, []⟩, ⟨[], []⟩, junkPaceTargets, []⟩

/-- When `generate_training_plan` succeeds, the plan's weekly schedule is the
one produced by `_generate_weekly_schedule` from the (defaulted) profile
fields. -/
lemma generate_ok_schedule {weeks : ℕ} {fitnessData : FitnessData}
    {goalTime : Option String} {plan : TrainingPlan}
    (h : generateTrainingPlan weeks fitnessData goalTime = Except.ok plan) :
    plan.weeklySchedule
      = generateWeeklySchedule weeks (fitnessData.weeklyMileage.getD 20)
          (maxSafeMileage weeks (fitnessData.weeklyMileage.getD 20)
            (fitnessData.fitnessLevel.getD ("Beginner")))
          (fitnessData.fitnessLevel.getD ("Beginner")) := by
  cases hc : calculatePaceTargets fitnessData goalTime with
  | error e =>
    simp only [generateTrainingPlan, hc] at h
    exact Except.noConfusion h
  | ok pt =>
    simp only [generateTrainingPlan, hc] at h
    injection h with h'
    rw [← h']

/-- C3: every weekly schedule returned by `generate_training_plan` has length
exactly `weeks`, with week numbers `1 .. weeks` in order (for the table
values of `weeks` and for arbitrary fallback values alike). -/
theorem schedule_length_and_week_numbers (weeks : ℕ) (fitnessData : FitnessData)
    (goalTime : Option String) (plan : TrainingPlan)
    (h : generateTrainingPlan weeks fitnessData goalTime = Except.ok plan) :
    plan.weeklySchedule.length = weeks
      ∧ plan.weeklySchedule.map WeekEntry.week = List.range' 1 weeks := by
  rw [generate_ok_schedule h]
  constructor
  · simp [generateWeeklySchedule]
  · simp only [generateWeeklySchedule, List.map_map, List.range'_eq_map_range]
    refine List.map_congr_left (fun i _ => ?_)
    simp [Nat.add_comm]

/-- The plan of a concrete 5-week generation (5 is outside `{4, 8, 12, 16}`,
exercising the fallback path). -/
def c3Plan : TrainingPlan :=
  ((generateTrainingPlan 5 ⟨some 30, some ("Intermediate"), some 12, some 9⟩
      none).toOption).getD junkPlan

/-- C3 witness: the 5-week plan has a 5-entry schedule numbered 1..5. -/
theorem schedule_length_and_week_numbers_witness :
    generateTrainingPlan 5 ⟨some 30, some ("Intermediate"), some 12, some 9⟩ none
        = Except.ok c3Plan
      ∧ c3Plan.weeklySchedule.length = 5
      ∧ c3Plan.weeklySchedule.map WeekEntry.week = List.range' 1 5 := by
  have h : generateTrainingPlan 5 ⟨some 30, some ("Intermediate"), some 12, some 9⟩
      none = Except.ok c3Plan := by rfl
  exact ⟨h, (schedule_length_and_week_numbers 5 _ none c3Plan h).1,
    (schedule_length_and_week_numbers 5 _ none c3Plan h).2⟩

/-- Permuting the run list does not change the sorted date list. -/
lemma sortedDayNums_perm {l1 l2 : List Run} (h : l1.Perm l2) :
    sortedDayNumsOf l1 = sortedDayNumsOf l2 := by
  unfold sortedDayNumsOf dayNumsOf
  exact List.eq_of_perm_of_sorted
    ((List.perm_insertionSort _ _).trans
      ((h.map _).trans (List.perm_insertionSort _ _).symm))
    (List.sorted_insertionSort _ _) (List.sorted_insertionSort _ _)

/-- C8: the consistency score is invariant under permutation of the input
records, and equals the threshold mapping (`_calculate_consistency_score`)
of the average gap between consecutive sorted run dates. -/
theorem consistency_score_perm_invariant (l1 l2 : List Run) (h : l1.Perm l2) :
    (analyzeStravaFitness l1).map Profile.consistencyScore
        = (analyzeStravaFitness l2).map Profile.consistencyScore
      ∧ (analyzeStravaFitness l1).map Profile.consistencyScore
        = (analyzeStravaFitness l1).map
            (fun _ => calculateConsistencyScore (avgGapOf l1)) := by
  constructor
  · have hgap : avgGapOf l1 = avgGapOf l2 := by
      unfold avgGapOf; rw [sortedDayNums_perm h]
    cases l1 with
    | nil =>
      have h2 : l2 = [] := List.Perm.eq_nil h.symm
      subst h2; rfl
    | cons a t =>
      cases l2 with
      | nil => simp at h
      | cons b s =>
        simp only [analyzeStravaFitness, Except.map]
        rw [hgap]
  · cases l1 with
    | nil => rfl
    | cons a t => rfl

/-- A concrete run record (used by the C8 witness). -/
def runA : Run := ⟨⟨2024, 1, 1⟩, 5, 9, none, none⟩

/-- A second concrete run record (used by the C8 witness). -/
def runB : Run := ⟨⟨2024, 1, 4⟩, 8, 10, none, none⟩

/-- C8 witness: swapping two concrete records leaves the consistency score
unchanged. -/
theorem consistency_score_perm_invariant_witness :
    (analyzeStravaFitness [ runA, runB ]).map Profile.consistencyScore
      = (analyzeStravaFitness [ runB, runA ]).map Profile.consistencyScore :=
  (consistency_score_perm_invariant [ runA, runB ] [ runB, runA ]
    (List.Perm.swap runB runA [])).1

/-- Rank of the five fitness tiers in the order
Beginner < Beginner+ < Intermediate < Intermediate+ < Advanced. -/
def tierRank (level : String) : ℕ :=
  if level = "Beginner" then 0
  else if level = "Beginner+" then 1
  else if level = "Intermediate" then 2
  else if level = "Intermediate+" then 3
  else if level = "Advanced" then 4
  else 0

/-- Rank of the base tier of the cascade, written as a maximum of threshold
indicators (the cascade checks the conditions in descending rank order, so
its first match is the largest satisfied indicator). -/
def cascadeRank (weeklyMileage longestRun : ℚ) : ℕ :=
  max (max (if 50 ≤ weeklyMileage ∧ 20 ≤ longestRun then 4 else 0)
           (if 35 ≤ weeklyMileage ∧ 16 ≤ longestRun then 3 else 0))
      (max (if 25 ≤ weeklyMileage ∧ 12 ≤ longestRun then 2 else 0)
           (if 15 ≤ weeklyMileage ∧ 8 ≤ longestRun then 1 else 0))

/-- Numeric characterization of `_determine_fitness_level`: the base rank is
`cascadeRank`, a fast pace lifts it to at least Intermediate, a slow pace
caps it at Intermediate. -/
lemma tierRank_determineFitnessLevel (weeklyMileage longestRun avgPace : ℚ) :
    tierRank (determineFitnessLevel weeklyMileage longestRun avgPace)
      = (if avgPace < 7 then max (cascadeRank weeklyMileage longestRun) 2
         else if 10 < avgPace then min (cascadeRank weeklyMileage longestRun) 2
         else cascadeRank weeklyMileage longestRun) := by
  simp only [determineFitnessLevel, cascadeRank]
  split_ifs <;> simp_all [tierRank]

/-- Each threshold indicator is monotone in the weekly mileage. -/
lemma indicator_mono {m1 m2 t lr L : ℚ} (h : m1 ≤ m2) (k : ℕ) :
    (if t ≤ m1 ∧ L ≤ lr then k else 0) ≤ (if t ≤ m2 ∧ L ≤ lr then k else 0) := by
  split_ifs with h1 h2
  · exact le_refl k
  · exact absurd ⟨h1.1.trans h, h1.2⟩ h2
  · exact Nat.zero_le k
  · exact le_refl 0

/-- The cascade rank is monotone in the weekly mileage. -/
lemma cascadeRank_mono {m1 m2 lr : ℚ} (h : m1 ≤ m2) :
    cascadeRank m1 lr ≤ cascadeRank m2 lr := by
  unfold cascadeRank
  exact max_le_max (max_le_max (indicator_mono h 4) (indicator_mono h 3))
    (max_le_max (indicator_mono h 2) (indicator_mono h 1))

/-- C7: holding the longest-run distance and the average pace fixed, a larger
weekly mileage never yields a lower fitness tier (in the order Beginner <
Beginner+ < Intermediate < Intermediate+ < Advanced). -/
theorem fitness_level_monotone_in_weekly_mileage (longestRun avgPace m1 m2 : ℚ)
    (h : m1 ≤ m2) :
    tierRank (determineFitnessLevel m1 longestRun avgPace)
      ≤ tierRank (determineFitnessLevel m2 longestRun avgPace) := by
  rw [tierRank_determineFitnessLevel, tierRank_determineFitnessLevel]
  split_ifs
  · exact max_le_max (cascadeRank_mono h) (le_refl 2)
  · exact min_le_min (cascadeRank_mono h) (le_refl 2)
  · exact cascadeRank_mono h

/-- C7 witness: at longest run 12 and pace 8, mileage 10 ranks no higher than
mileage 60. -/
theorem fitness_level_monotone_witness :
    tierRank (determineFitnessLevel 10 12 8)
      ≤ tierRank (determineFitnessLevel 60 12 8) :=
  fitness_level_monotone_in_weekly_mileage 12 8 10 60 (by norm_num)

/-- C6 counterexample: at `weeks = 12` and longest run 8, the long-run
progression starts at 10, not at `max(longestRun, 8) = 8` — the loop
increments `current` before appending the first entry. -/
theorem long_run_first_entry_counterexample :
    (generateKeyWorkouts 12 ("Intermediate") 8).longRunProgression
        = [ 10, 10, 12, 12, 14, 14, 16, 16, 18, 12, 8, 6 ]
      ∧ ¬ ((generateKeyWorkouts 12 ("Intermediate") 8).longRunProgression.head?
            = some (pymax (8 : ℚ) 8)) := by
  exact ⟨by with_unfolding_all decide, by with_unfolding_all decide⟩

/-- The amended long-run construction in the spec's sequence-building style:
starting from `current = max(longestRun, 8)`, each of the `weeks - 4` build
steps first increments `current` by 2 when the step index is even and
`current < 20`, then emits `min(current, 22)`; the fixed taper tail
`[18, 12, 8, 6]` follows, and the first `weeks` entries are kept. -/
def specLongRunsAmended (weeks : ℕ) (longestRun : ℚ) : List ℚ :=
  let start := pymax longestRun 8
  ((((List.range (weeks - 4)).foldl
      (fun (st : ℚ × List ℚ) (j : ℕ) =>
        let c := if j % 2 = 0 ∧ st.1 < 20 then st.1 + 2 else st.1
        (c, st.2 ++ [ pymin c 22 ]))
      (start, [])).2) ++ [ 18, 12, 8, 6 ]).take weeks

/-- The loop of `longRunLoop` produces `n` entries. -/
lemma longRunLoop_length : ∀ (n i : ℕ) (c : ℚ), (longRunLoop n i c).length = n := by
  intro n
  induction n with
  | zero => intro i c; rfl
  | succ m ih => intro i c; simp [longRunLoop, ih]

/-- The fold over the index range and the recursion of the source loop build
the same list. -/
lemma longRun_foldl_eq : ∀ (n i : ℕ) (c : ℚ) (acc : List ℚ),
    ((List.range' i n).foldl
      (fun (st : ℚ × List ℚ) (j : ℕ) =>
        let c' := if j % 2 = 0 ∧ st.1 < 20 then st.1 + 2 else st.1
        (c', st.2 ++ [ pymin c' 22 ]))
      (c, acc)).2
      = acc ++ longRunLoop n i c := by
  intro n
  induction n with
  | zero => intro i c acc; simp [longRunLoop]
  | succ m ih =>
    intro i c acc
    rw [List.range'_succ]
    simp only [List.foldl_cons, longRunLoop]
    rw [ih]
    simp

/-- C6 amended: for `weeks ≥ 12` the long-run progression is exactly the
increment-before-emit sequence (`specLongRunsAmended`); it has `weeks`
entries; it ends with the fixed taper tail `[18, 12, 8, 6]`; and its first
entry is `max(longestRun, 8) + 2` capped at 22 when that start is below 20
(not the start value itself). -/
theorem long_run_progression_amended (weeks : ℕ) (fitnessLevel : String)
    (longestRun : ℚ) (h : 12 ≤ weeks) :
    (generateKeyWorkouts weeks fitnessLevel longestRun).longRunProgression
        = specLongRunsAmended weeks longestRun
      ∧ (generateKeyWorkouts weeks fitnessLevel longestRun).longRunProgression.length
        = weeks
      ∧ (generateKeyWorkouts weeks fitnessLevel longestRun).longRunProgression.drop
          (weeks - 4) = [ 18, 12, 8, 6 ]
      ∧ (generateKeyWorkouts weeks fitnessLevel longestRun).longRunProgression.head?
        = some (if pymax longestRun 8 < 20 then pymin (pymax longestRun 8 + 2) 22
                else pymin (pymax longestRun 8) 22) := by
  have hfold : specLongRunsAmended weeks longestRun
      = ((longRunLoop (weeks - 4) 0 (pymax longestRun 8)) ++ [ 18, 12, 8, 6 ]).take weeks := by
    simp only [specLongRunsAmended]
    rw [List.range_eq_range', longRun_foldl_eq]
    simp
  have hprog : (generateKeyWorkouts weeks fitnessLevel longestRun).longRunProgression
      = ((longRunLoop (weeks - 4) 0 (pymax longestRun 8)) ++ [ 18, 12, 8, 6 ]).take weeks := by
    simp only [generateKeyWorkouts, longRunProgressionOf, if_pos h]
  have hlen : ((longRunLoop (weeks - 4) 0 (pymax longestRun 8)) ++ [ 18, 12, 8, 6 ]).length
      = weeks := by
    simp [longRunLoop_length]
    omega
  have htake : ((longRunLoop (weeks - 4) 0 (pymax longestRun 8)) ++ [ 18, 12, 8, 6 ]).take weeks
      = (longRunLoop (weeks - 4) 0 (pymax longestRun 8)) ++ [ 18, 12, 8, 6 ] :=
    List.take_of_length_le (le_of_eq hlen)
  refine ⟨by rw [hprog, hfold], by rw [hprog, htake, hlen], ?_, ?_⟩
  · rw [hprog, htake]
    exact List.drop_left' (longRunLoop_length _ _ _)
  · rw [hprog, htake]
    obtain ⟨m, hm⟩ : ∃ m, weeks - 4 = m + 1 := ⟨weeks - 5, by omega⟩
    rw [hm]
    simp only [longRunLoop, Nat.zero_mod, true_and]
    split_ifs <;> rfl

/-- C6 witness: the amended description matches at `weeks = 12`, longest
run 8 (where the first entry is `8 + 2 = 10`). -/
theorem long_run_progression_amended_witness :
    (generateKeyWorkouts 12 ("Advanced") 8).longRunProgression
        = specLongRunsAmended 12 8
      ∧ (generateKeyWorkouts 12 ("Advanced") 8).longRunProgression.length = 12
      ∧ (generateKeyWorkouts 12 ("Advanced") 8).longRunProgression.drop (12 - 4)
        = [ 18, 12, 8, 6 ]
      ∧ (generateKeyWorkouts 12 ("Advanced") 8).longRunProgression.head?
        = some (if pymax (8 : ℚ) 8 < 20 then pymin (pymax (8 : ℚ) 8 + 2) 22
                else pymin (pymax (8 : ℚ) 8) 22) :=
  long_run_progression_amended 12 ("Advanced") 8 (by norm_num)

/-- Number of taper weeks of the weekly schedule: the last 4 weeks when
`weeks ≥ 12`, the last 2 otherwise. -/
def taperWeekCount (weeks : ℕ) : ℕ := if 12 ≤ weeks then 4 else 2

/-- Placeholder week entry (used only as a `getD` default below). -/
def junkWeekEntry : WeekEntry := ⟨0, 0, "", ""⟩

/-- The mileage of the peak (maximum-mileage) week of a schedule. -/
def maxTotalMiles (schedule : List WeekEntry) : ℚ :=
  (schedule.map WeekEntry.totalMiles).foldr max 0

lemma le_maxTotalMiles {e : WeekEntry} : ∀ {s : List WeekEntry}, e ∈ s →
    e.totalMiles ≤ maxTotalMiles s := by
  intro s
  induction s with
  | nil => intro h; cases h
  | cons a t ih =>
    intro h
    rcases List.mem_cons.mp h with rfl | h'
    · unfold maxTotalMiles
      simp only [List.map_cons, List.foldr_cons]
      exact le_max_left _ _
    · have := ih h'
      unfold maxTotalMiles at this ⊢
      simp only [List.map_cons, List.foldr_cons]
      exact le_trans this (le_max_right _ _)

/-- The plan of a concrete 2-week generation with weekly mileage 20 (used by
the C4 counterexample: with `weeks = 2` every week is a taper week, so the
first taper week is itself the peak week). -/
def c4Plan : TrainingPlan :=
  ((generateTrainingPlan 2 ⟨some 20, some ("Intermediate"), some 10, some 9⟩
      none).toOption).getD junkPlan

/-- C4 counterexample: `generate` at `weeks = 2` with positive current weekly
mileage 20 produces the schedule `[14, 10]`; week 1 is a taper week
(`weeks < 12`, last 2 weeks) whose mileage equals the peak mileage 14, so the
taper week is not strictly below the peak week. -/
theorem taper_strict_counterexample :
    generateTrainingPlan 2 ⟨some 20, some ("Intermediate"), some 10, some 9⟩ none
        = Except.ok c4Plan
      ∧ (0 : ℚ) < 20
      ∧ (c4Plan.weeklySchedule.getD 0 junkWeekEntry) ∈ c4Plan.weeklySchedule
      ∧ 2 - taperWeekCount 2 < (c4Plan.weeklySchedule.getD 0 junkWeekEntry).week
      ∧ ¬ ((c4Plan.weeklySchedule.getD 0 junkWeekEntry).totalMiles
            < maxTotalMiles c4Plan.weeklySchedule) := by
  refine ⟨by rfl, by norm_num, ?_, ?_, ?_⟩ <;> with_unfolding_all decide

lemma roundq_one_bounds (x : ℚ) :
    x - 1 / 20 ≤ roundq 1 x ∧ roundq 1 x ≤ x + 1 / 20 := by
  have h := abs_sub_round (x * (10 : ℚ) ^ 1)
  rw [abs_le] at h
  unfold roundq
  obtain ⟨h1, h2⟩ := h
  norm_num at h1 h2 ⊢
  constructor <;> linarith

lemma roundq_one_mono {x y : ℚ} (h : x ≤ y) : roundq 1 x ≤ roundq 1 y := by
  unfold roundq
  have hpow : (0 : ℚ) ≤ (10 : ℚ) ^ 1 := by norm_num
  have hm : x * (10 : ℚ) ^ 1 ≤ y * (10 : ℚ) ^ 1 := mul_le_mul_of_nonneg_right h hpow
  have hr : round (x * (10 : ℚ) ^ 1) ≤ round (y * (10 : ℚ) ^ 1) := by
    rw [round_eq, round_eq]
    exact Int.floor_le_floor (by linarith)
  have hc : ((round (x * (10 : ℚ) ^ 1) : ℤ) : ℚ) ≤ ((round (y * (10 : ℚ) ^ 1) : ℤ) : ℚ) :=
    Int.cast_le.mpr hr
  have h10 : (0 : ℚ) < (10 : ℚ) ^ 1 := by norm_num
  exact (div_le_div_iff_of_pos_right h10).mpr hc

lemma roundq_one_nonneg {x : ℚ} (h : 0 ≤ x) : 0 ≤ roundq 1 x := by
  have h0 : roundq 1 0 = 0 := by
    unfold roundq
    norm_num
  calc (0 : ℚ) = roundq 1 0 := h0.symm
    _ ≤ roundq 1 x := roundq_one_mono h

lemma roundq_lt_of_gap {x y : ℚ} (h : x + 1 / 10 < y) : roundq 1 x < roundq 1 y := by
  have h1 := (roundq_one_bounds x).2
  have h2 := (roundq_one_bounds y).1
  linarith

lemma mem_generateWeeklySchedule {weeks : ℕ} {base peak : ℚ} {level : String}
    {e : WeekEntry} (he : e ∈ generateWeeklySchedule weeks base peak level) :
    ∃ i, i < weeks ∧ e.week = i + 1
      ∧ e.totalMiles = (if i + 1 ≤ (mileageProgression weeks base peak).length
          then (mileageProgression weeks base peak).getD i base else base) := by
  unfold generateWeeklySchedule at he
  obtain ⟨i, hi, hfe⟩ := List.mem_map.mp he
  refine ⟨i, List.mem_range.mp hi, ?_, ?_⟩
  · rw [← hfe]
  · rw [← hfe]
    simp

lemma entry_mem_generateWeeklySchedule (weeks : ℕ) (base peak : ℚ) (level : String)
    {i : ℕ} (hi : i < weeks) :
    ({ week := i + 1,
       totalMiles := if i + 1 ≤ (mileageProgression weeks base peak).length
           then (mileageProgression weeks base peak).getD i base else base,
       focus := getWeekFocus (i + 1) weeks,
       keyWorkout := getKeyWorkout (i + 1) weeks level } : WeekEntry)
      ∈ generateWeeklySchedule weeks base peak level := by
  unfold generateWeeklySchedule
  refine List.mem_map.mpr ⟨i, List.mem_range.mpr hi, ?_⟩
  simp

lemma mileageProgression_length {weeks : ℕ} (base peak : ℚ) (h2 : 2 ≤ weeks) :
    (mileageProgression weeks base peak).length = weeks := by
  unfold mileageProgression
  split_ifs with h12
  · simp
    omega
  · simp
    omega

lemma getD_map_range {n i : ℕ} (f : ℕ → ℚ) (d : ℚ) (hi : i < n) :
    ((List.range n).map f).getD i d = f i := by
  rw [List.getD_eq_getElem?_getD, List.getElem?_map, List.getElem?_range hi]
  rfl

lemma prog_getD_build {weeks : ℕ} (base peak : ℚ) {i : ℕ} (h12 : 12 ≤ weeks)
    (hi : i < weeks - 4) (d : ℚ) :
    (mileageProgression weeks base peak).getD i d
      = roundq 1 (base + (peak - base) / ((weeks - 4 : ℕ) : ℚ) * (i : ℚ)) := by
  unfold mileageProgression
  rw [if_pos h12]
  rw [List.getD_append _ _ _ _ (by simpa using hi)]
  exact getD_map_range _ _ hi

lemma prog_getD_taper {weeks : ℕ} (base peak : ℚ) {j : ℕ} (h12 : 12 ≤ weeks)
    (hj : j < 4) (d : ℚ) :
    (mileageProgression weeks base peak).getD (weeks - 4 + j) d
      = ([ roundq 1 (peak * 0.8), roundq 1 (peak * 0.6),
           roundq 1 (peak * 0.4), roundq 1 (peak * 0.3) ]).getD j d := by
  unfold mileageProgression
  rw [if_pos h12]
  rw [List.getD_append_right _ _ _ _ (by simp)]
  congr 1
  simp

lemma prog_getD_short_build {weeks : ℕ} (base peak : ℚ) {i : ℕ} (h12 : ¬ 12 ≤ weeks)
    (hi : i < weeks - 2) (d : ℚ) :
    (mileageProgression weeks base peak).getD i d = base := by
  unfold mileageProgression
  rw [if_neg h12]
  rw [List.getD_append _ _ _ _ (by simpa using hi)]
  exact getD_map_range _ _ hi

lemma prog_getD_short_taper {weeks : ℕ} (base peak : ℚ) {j : ℕ} (h12 : ¬ 12 ≤ weeks)
    (hj : j < 2) (d : ℚ) :
    (mileageProgression weeks base peak).getD (weeks - 2 + j) d
      = ([ roundq 1 (base * 0.7), roundq 1 (base * 0.5) ]).getD j d := by
  unfold mileageProgression
  rw [if_neg h12]
  rw [List.getD_append_right _ _ _ _ (by simp)]
  congr 1
  simp

lemma mileageProgression_nonneg {weeks : ℕ} {base peak : ℚ} (hb : 0 ≤ base)
    (hp : 0 ≤ peak) : ∀ x ∈ mileageProgression weeks base peak, 0 ≤ x := by
  intro x hx
  unfold mileageProgression at hx
  split_ifs at hx with h12
  · rcases List.mem_append.mp hx with hx | hx
    · obtain ⟨w, hw, rfl⟩ := List.mem_map.mp hx
      have hwlt : w < weeks - 4 := List.mem_range.mp hw
      apply roundq_one_nonneg
      have hB0 : (0 : ℚ) < ((weeks - 4 : ℕ) : ℚ) := by
        exact_mod_cast (by omega : 0 < weeks - 4)
      have hw1 : (w : ℚ) ≤ ((weeks - 4 : ℕ) : ℚ) := by
        exact_mod_cast le_of_lt hwlt
      have hw0 : (0 : ℚ) ≤ (w : ℚ) := Nat.cast_nonneg w
      have key : base + (peak - base) / ((weeks - 4 : ℕ) : ℚ) * (w : ℚ)
          = base * (1 - (w : ℚ) / ((weeks - 4 : ℕ) : ℚ))
            + peak * ((w : ℚ) / ((weeks - 4 : ℕ) : ℚ)) := by
        field_simp
        ring
      rw [key]
      have h1 : (w : ℚ) / ((weeks - 4 : ℕ) : ℚ) ≤ 1 := (div_le_one hB0).mpr hw1
      have h2 : 0 ≤ (w : ℚ) / ((weeks - 4 : ℕ) : ℚ) := div_nonneg hw0 hB0.le
      have h3 := mul_nonneg hb (by linarith : (0 : ℚ) ≤ 1 - (w : ℚ) / ((weeks - 4 : ℕ) : ℚ))
      have h4 := mul_nonneg hp h2
      linarith
    · simp only [List.mem_cons, List.not_mem_nil, or_false] at hx
      rcases hx with rfl | rfl | rfl | rfl <;>
        exact roundq_one_nonneg (mul_nonneg hp (by norm_num))
  · rcases List.mem_append.mp hx with hx | hx
    · obtain ⟨w, hw, rfl⟩ := List.mem_map.mp hx
      exact hb
    · simp only [List.mem_cons, List.not_mem_nil, or_false] at hx
      rcases hx with rfl | rfl <;>
        exact roundq_one_nonneg (mul_nonneg hb (by norm_num))

lemma mileageProgression_getD_nonneg {weeks : ℕ} {base peak : ℚ} (hb : 0 ≤ base)
    (hp : 0 ≤ peak) (i : ℕ) :
    0 ≤ (mileageProgression weeks base peak).getD i base := by
  rcases Nat.lt_or_ge i (mileageProgression weeks base peak).length with hi | hi
  · rw [List.getD_eq_getElem?_getD, List.getElem?_eq_getElem hi]
    simpa using mileageProgression_nonneg hb hp _ (List.getElem_mem hi)
  · rw [List.getD_eq_default _ _ hi]
    exact hb

lemma generateWeeklySchedule_nonneg {weeks : ℕ} {base peak : ℚ} {level : String}
    (hb : 0 ≤ base) (hp : 0 ≤ peak) :
    ∀ e ∈ generateWeeklySchedule weeks base peak level, 0 ≤ e.totalMiles := by
  intro e he
  obtain ⟨i, hi, hwk, hm⟩ := mem_generateWeeklySchedule he
  rw [hm]
  split_ifs with hif
  · exact mileageProgression_getD_nonneg hb hp i
  · exact hb

lemma schedule_entry_le_max {weeks : ℕ} (base peak : ℚ) (level : String) {w0 : ℕ}
    (hw0 : w0 < weeks) (hlen : (mileageProgression weeks base peak).length = weeks) :
    (mileageProgression weeks base peak).getD w0 base
      ≤ maxTotalMiles (generateWeeklySchedule weeks base peak level) := by
  have hmem := entry_mem_generateWeeklySchedule weeks base peak level hw0
  have hle := le_maxTotalMiles hmem
  rw [if_pos (by omega : w0 + 1 ≤ (mileageProgression weeks base peak).length)] at hle
  exact hle

lemma peakMultiplier_pos (weeks : ℕ) : 0 < peakMultiplier weeks := by
  unfold peakMultiplier
  split_ifs <;> norm_num

lemma maxSafeMileage_nonneg {weeks : ℕ} {wm : ℚ} {level : String} (h : 0 ≤ wm) :
    0 ≤ maxSafeMileage weeks wm level := by
  have hm : 0 ≤ wm * peakMultiplier weeks := mul_nonneg h (peakMultiplier_pos weeks).le
  have hmin : 0 ≤ pymin (wm * peakMultiplier weeks) 70 := by
    rw [pymin_eq_min]
    exact le_min hm (by norm_num)
  simp only [maxSafeMileage]
  split_ifs
  · rw [pymin_eq_min]
    exact le_min hmin (by norm_num)
  · rw [pymin_eq_min]
    exact le_min hmin (by norm_num)
  · exact hmin

lemma generateWeeklySchedule_taper_strict {weeks : ℕ} {base peak : ℚ} {level : String}
    (hw3 : 3 ≤ weeks) (hb : 1 ≤ base) (hp : 0 ≤ peak) :
    ∀ e ∈ generateWeeklySchedule weeks base peak level,
      weeks - taperWeekCount weeks < e.week →
      e.totalMiles < maxTotalMiles (generateWeeklySchedule weeks base peak level) := by
  intro e he hte
  obtain ⟨i, hi, hwk, hm⟩ := mem_generateWeeklySchedule he
  have hlen : (mileageProgression weeks base peak).length = weeks :=
    mileageProgression_length base peak (by omega)
  have hile : i + 1 ≤ (mileageProgression weeks base peak).length := by omega
  rw [hm, if_pos hile]
  rw [hwk] at hte
  by_cases h12 : 12 ≤ weeks
  · have h4 : taperWeekCount weeks = 4 := if_pos h12
    rw [h4] at hte
    obtain ⟨j, hj4, rfl⟩ : ∃ j, j < 4 ∧ i = weeks - 4 + j :=
      ⟨i - (weeks - 4), by omega, by omega⟩
    rw [prog_getD_taper base peak h12 hj4]
    have hkey : ∀ c : ℚ, 0 ≤ c → c ≤ 0.8 → roundq 1 (peak * c)
        < maxTotalMiles (generateWeeklySchedule weeks base peak level) := by
      intro c hc0 hc8
      rcases le_or_lt base peak with hbp | hpb
      · have hw0 : weeks - 5 < weeks := by omega
        have hgetd := prog_getD_build base peak h12
          (show weeks - 5 < weeks - 4 by omega) base
        have hle := schedule_entry_le_max base peak level hw0 hlen
        rw [hgetd] at hle
        refine lt_of_lt_of_le ?_ hle
        apply roundq_lt_of_gap
        have hB8 : (8 : ℚ) ≤ ((weeks - 4 : ℕ) : ℚ) := by
          exact_mod_cast (by omega : 8 ≤ weeks - 4)
        have hB0 : (0 : ℚ) < ((weeks - 4 : ℕ) : ℚ) := by linarith
        have hcast : ((weeks - 5 : ℕ) : ℚ) = ((weeks - 4 : ℕ) : ℚ) - 1 := by
          have h5 : (5 : ℕ) ≤ weeks := by omega
          have h4' : (4 : ℕ) ≤ weeks := by omega
          rw [Nat.cast_sub h5, Nat.cast_sub h4']
          push_cast
          ring
        rw [hcast]
        have hkey2 : base + (peak - base) / ((weeks - 4 : ℕ) : ℚ)
              * (((weeks - 4 : ℕ) : ℚ) - 1)
            = peak - (peak - base) / ((weeks - 4 : ℕ) : ℚ) := by
          field_simp
          ring
        rw [hkey2]
        have hp1 : (1 : ℚ) ≤ peak := le_trans hb hbp
        have hcmul : peak * c ≤ peak * 0.8 :=
          mul_le_mul_of_nonneg_left hc8 (by linarith)
        have hdiv : (peak - base) / ((weeks - 4 : ℕ) : ℚ) ≤ (peak - base) / 8 :=
          div_le_div_of_nonneg_left (by linarith) (by norm_num) hB8
        have hdiv2 : (peak - base) / 8 ≤ (peak - 1) / 8 :=
          (div_le_div_iff_of_pos_right (by norm_num)).mpr (by linarith)
        linarith
      · have hw0 : 0 < weeks := by omega
        have hgetd := prog_getD_build base peak h12 (show 0 < weeks - 4 by omega) base
        have hle := schedule_entry_le_max base peak level hw0 hlen
        rw [hgetd] at hle
        norm_num at hle
        refine lt_of_lt_of_le ?_ hle
        apply roundq_lt_of_gap
        have h1 : peak * c ≤ peak * 0.8 := mul_le_mul_of_nonneg_left hc8 hp
        have h2 : peak * (0.8 : ℚ) ≤ base * 0.8 :=
          mul_le_mul_of_nonneg_right (le_of_lt hpb) (by norm_num)
        linarith
    interval_cases j
    · simpa using hkey 0.8 (by norm_num) (by norm_num)
    · simpa using hkey 0.6 (by norm_num) (by norm_num)
    · simpa using hkey 0.4 (by norm_num) (by norm_num)
    · simpa using hkey 0.3 (by norm_num) (by norm_num)
  · have h2t : taperWeekCount weeks = 2 := if_neg h12
    rw [h2t] at hte
    obtain ⟨j, hj2, rfl⟩ : ∃ j, j < 2 ∧ i = weeks - 2 + j :=
      ⟨i - (weeks - 2), by omega, by omega⟩
    rw [prog_getD_short_taper base peak h12 hj2]
    have hkey : ∀ c : ℚ, 0 ≤ c → c ≤ 0.7 → roundq 1 (base * c)
        < maxTotalMiles (generateWeeklySchedule weeks base peak level) := by
      intro c hc0 hc7
      have hw0 : 0 < weeks := by omega
      have hgetd := prog_getD_short_build base peak h12 (show 0 < weeks - 2 by omega) base
      have hle := schedule_entry_le_max base peak level hw0 hlen
      rw [hgetd] at hle
      refine lt_of_lt_of_le ?_ hle
      have hub := (roundq_one_bounds (base * c)).2
      have h1 : base * c ≤ base * 0.7 := mul_le_mul_of_nonneg_left hc7 (by linarith)
      linarith
    interval_cases j
    · simpa using hkey 0.7 (by norm_num) (by norm_num)
    · simpa using hkey 0.5 (by norm_num) (by norm_num)

/-- C4 amended: for every plan returned by `generate_training_plan` with at
least 3 weeks and current weekly mileage at least 1 mile, every schedule
entry's total mileage is non-negative, and every taper-week entry (the last 4
weeks when `weeks ≥ 12`, the last 2 otherwise) has strictly lower mileage
than the peak (maximum-mileage) week of the schedule. -/
theorem taper_and_nonneg_amended (weeks : ℕ) (fitnessData : FitnessData)
    (goalTime : Option String) (plan : TrainingPlan)
    (h : generateTrainingPlan weeks fitnessData goalTime = Except.ok plan)
    (hw : 3 ≤ weeks) (hb : 1 ≤ fitnessData.weeklyMileage.getD 20) :
    (∀ e ∈ plan.weeklySchedule, 0 ≤ e.totalMiles)
      ∧ (∀ e ∈ plan.weeklySchedule,
          weeks - taperWeekCount weeks < e.week →
          e.totalMiles < maxTotalMiles plan.weeklySchedule) := by
  rw [generate_ok_schedule h]
  constructor
  · exact generateWeeklySchedule_nonneg (by linarith) (maxSafeMileage_nonneg (by linarith))
  · exact generateWeeklySchedule_taper_strict hw hb (maxSafeMileage_nonneg (by linarith))

/-- The plan of a concrete 4-week generation (used by the C4 witness). -/
def c4PlanW : TrainingPlan :=
  ((generateTrainingPlan 4 ⟨some 20, some ("Intermediate"), some 10, some 9⟩
      none).toOption).getD junkPlan

/-- C4 witness: in the concrete 4-week plan (schedule `[20, 20, 14, 10]`),
the first entry is non-negative and the last taper entry is strictly below
the peak week. -/
theorem taper_and_nonneg_amended_witness :
    0 ≤ (c4PlanW.weeklySchedule.getD 0 junkWeekEntry).totalMiles
      ∧ (c4PlanW.weeklySchedule.getD 3 junkWeekEntry).totalMiles
        < maxTotalMiles c4PlanW.weeklySchedule := by
  have h : generateTrainingPlan 4 ⟨some 20, some ("Intermediate"), some 10, some 9⟩
      none = Except.ok c4PlanW := by rfl
  obtain ⟨hn, ht⟩ := taper_and_nonneg_amended 4 _ none c4PlanW h (by norm_num)
    (by norm_num [Option.getD])
  constructor
  · exact hn _ (by with_unfolding_all decide)
  · exact ht _ (by with_unfolding_all decide) (by with_unfolding_all decide)

end Marathon
